import Mathlib

/-!
Shallow embedding of `sphinx_asciidoc/writer.py` (docutils AsciiDoc writer).

Python/docutils semantics mirrored here:
* attribute access `node.get(k)` returns `None` when absent, modelled by `Option`;
* `docutils.nodes.Node` defines `__bool__` to return `True` unconditionally,
  so every node object — element or `Text`, with or without children — is
  truthy; only non-node values such as the `""` sentinel are falsy;
* `str(element)` is an XML rendering beginning with `<tagname`, while
  `str(textnode)` is the raw text payload;
* a raised Python exception aborts the traversal; this is modelled with
  `Except PyExc`.  `except KeyError` does not catch a `TypeError`.
-/

/-- Kinds of Python exceptions the translated code can raise. -/
inductive PyExc where
  | keyError
  | typeError
  | indexError
  | unboundLocal
  | attributeError
  | zeroDivision
deriving DecidableEq

/-- Parent tag used by `visit_title` (`isinstance(node.parent, ...)` checks). -/
inductive NTag where
  | document
  | section
  | table
  | other
deriving DecidableEq

/-- The docutils node kinds this writer's claims exercise.  Each carries the
attributes the Python code reads via `node.get`/`node[...]`. -/
inductive Node where
  | text (s : String)
  | document (source : Option String) (children : List Node)
  | section (children : List Node)
  | title (children : List Node)
  | paragraph (children : List Node)
  | bullet_list (children : List Node)
  | enumerated_list (enumtype : Option String) (children : List Node)
  | list_item (classes : List String) (children : List Node)
  | reference (refuri refid rname anchorname : Option String)
      (internal : Option Bool) (children : List Node)
  | target (refid : Option String) (ids : List String) (refuri : Option String)
  | figure (children : List Node)
  | image (uri : Option String) (alt : Option String)
  | caption (children : List Node)
  | legend (children : List Node)
  | note (children : List Node)
  | tip (children : List Node)
  | warning (children : List Node)
  | important (children : List Node)
  | caution (children : List Node)
  | footnote_reference (refid : Option String) (children : List Node)
  | table (children : List Node)
  | tgroup (cols : Nat) (children : List Node)
  | colspec (colwidth : Nat)
  | row (children : List Node)
  | entry (children : List Node)

/-- The ordered children of a node (`node.children` in docutils). -/
def Node.childList : Node → List Node
  | .text _ => []
  | .document _ ch => ch
  | .section ch => ch
  | .title ch => ch
  | .paragraph ch => ch
  | .bullet_list ch => ch
  | .enumerated_list _ ch => ch
  | .list_item _ ch => ch
  | .reference _ _ _ _ _ ch => ch
  | .target _ _ _ => []
  | .figure ch => ch
  | .image _ _ => []
  | .caption ch => ch
  | .legend ch => ch
  | .note ch => ch
  | .tip ch => ch
  | .warning ch => ch
  | .important ch => ch
  | .caution ch => ch
  | .footnote_reference _ ch => ch
  | .table ch => ch
  | .tgroup _ ch => ch
  | .colspec _ => []
  | .row ch => ch
  | .entry ch => ch

/-- The docutils tag name of a node. -/
def Node.tagName : Node → String
  | .text _ => "Text"
  | .document _ _ => "document"
  | .section _ => "section"
  | .title _ => "title"
  | .paragraph _ => "paragraph"
  | .bullet_list _ => "bullet_list"
  | .enumerated_list _ _ => "enumerated_list"
  | .list_item _ _ => "list_item"
  | .reference _ _ _ _ _ _ => "reference"
  | .target _ _ _ => "target"
  | .figure _ => "figure"
  | .image _ _ => "image"
  | .caption _ => "caption"
  | .legend _ => "legend"
  | .note _ => "note"
  | .tip _ => "tip"
  | .warning _ => "warning"
  | .important _ => "important"
  | .caution _ => "caution"
  | .footnote_reference _ _ => "footnote_reference"
  | .table _ => "table"
  | .tgroup _ _ => "tgroup"
  | .colspec _ => "colspec"
  | .row _ => "row"
  | .entry _ => "entry"

/-- `str(n)` for a docutils node: the raw payload for `Text` (a `str`
subclass), an XML rendering starting with `<tagname` for elements.  The
writer only ever inspects this with `startswith`. -/
def strRepr (n : Node) : String :=
  match n with
  | .text s => s
  | _ => "<" ++ n.tagName ++ "/>"

/-- The `NTag` of a node, used for `node.parent` dispatch in `visit_title`. -/
def Node.tagOf : Node → NTag
  | .document _ _ => .document
  | .section _ => .section
  | .table _ => .table
  | _ => .other

mutual

/-- `node.traverse(include_self=False)`: all descendants in document
(pre-)order. -/
def descendants : Node → List Node
  | .text _ => []
  | .document _ ch => descList ch
  | .section ch => descList ch
  | .title ch => descList ch
  | .paragraph ch => descList ch
  | .bullet_list ch => descList ch
  | .enumerated_list _ ch => descList ch
  | .list_item _ ch => descList ch
  | .reference _ _ _ _ _ ch => descList ch
  | .target _ _ _ => []
  | .figure ch => descList ch
  | .image _ _ => []
  | .caption ch => descList ch
  | .legend ch => descList ch
  | .note ch => descList ch
  | .tip ch => descList ch
  | .warning ch => descList ch
  | .important ch => descList ch
  | .caution ch => descList ch
  | .footnote_reference _ ch => descList ch
  | .table ch => descList ch
  | .tgroup _ ch => descList ch
  | .colspec _ => []
  | .row ch => descList ch
  | .entry ch => descList ch
termination_by structural n => n

/-- Pre-order listing of a forest: each root followed by its descendants. -/
def descList : List Node → List Node
  | [] => []
  | n :: rest => n :: (descendants n ++ descList rest)
termination_by structural l => l

end

mutual

/-- docutils `node.astext()`: concatenation of all text payloads below. -/
def astext : Node → String
  | .text s => s
  | .document _ ch => astextList ch
  | .section ch => astextList ch
  | .title ch => astextList ch
  | .paragraph ch => astextList ch
  | .bullet_list ch => astextList ch
  | .enumerated_list _ ch => astextList ch
  | .list_item _ ch => astextList ch
  | .reference _ _ _ _ _ ch => astextList ch
  | .target _ _ _ => ""
  | .figure ch => astextList ch
  | .image _ _ => ""
  | .caption ch => astextList ch
  | .legend ch => astextList ch
  | .note ch => astextList ch
  | .tip ch => astextList ch
  | .warning ch => astextList ch
  | .important ch => astextList ch
  | .caution ch => astextList ch
  | .footnote_reference _ ch => astextList ch
  | .table ch => astextList ch
  | .tgroup _ ch => astextList ch
  | .colspec _ => ""
  | .row ch => astextList ch
  | .entry ch => astextList ch
termination_by structural n => n

/-- `astext` over a list of children. -/
def astextList : List Node → String
  | [] => ""
  | n :: rest => astext n ++ astextList rest

end

/-- Python `str(x)` of an optional string attribute: `None` prints as
"None". -/
def optToStr : Option String → String
  | none => "None"
  | some s => s

/-- Python truthiness of an optional string: `None` and `""` are falsy. -/
def truthyStr : Option String → Bool
  | none => false
  | some s => !s.isEmpty

/-- Python `s.startswith(pre)`, via character lists so the kernel can
evaluate it. -/
def pyStartsWith (s pre : String) : Bool :=
  pre.data.isPrefixOf s.data

/-- Python `s.lower()`, via character lists so the kernel can evaluate it. -/
def pyLower (s : String) : String :=
  String.mk (s.data.map Char.toLower)

/-- Python substring test `needle in hay`. -/
def strContainsSub (hay needle : String) : Bool :=
  (List.range (hay.data.length + 1)).any
    (fun i => needle.data.isPrefixOf (hay.data.drop i))

/-- Python `str(classes)` for a list of class strings, e.g.
`[\x27toctree-l1\x27]`; the writer only does a substring test on it. -/
def reprClasses (classes : List String) : String :=
  "[" ++ String.intercalate ", " (classes.map (fun c => "\x27" ++ c ++ "\x27")) ++ "]"

/-- `toansi`: encode special characters (writer.py lines 39-55).  Braces,
backslash and bar are escaped; other ASCII passes through; non-ASCII becomes
a backslash-quote hex escape (`%x` formatting). -/
def toansiChar (c : Char) : String :=
  if c = '\x7b' then "\\\x7b"
  else if c = '\x7d' then "\\\x7d"
  else if c = '\\' then "\\\\"
  else if c = '|' then "\\|"
  else if c.toNat < 127 then String.singleton c
  else "\\\x27" ++ String.mk (Nat.toDigits 16 c.toNat)

/-- `toansi` over a whole string (the `for char in text` loop). -/
def toansi (text : String) : String :=
  text.data.foldl (fun out c => out ++ toansiChar c) ""

/-- `sectionEquals` dict (writer.py lines 58-66): heading markers for section
levels -1..5; a missing key is `none` (Python `KeyError`). -/
def sectionEquals (n : Int) : Option String :=
  if n = -1 then some ""
  else if n = 0 then some "="
  else if n = 1 then some "=="
  else if n = 2 then some "==="
  else if n = 3 then some "===="
  else if n = 4 then some "====="
  else if n = 5 then some "======"
  else none

/-- `bulletIndent` dict (writer.py lines 69-75): bullet-list item markers for
levels 1..5; a missing key is `none` (Python `KeyError`). -/
def bulletIndent (n : Nat) : Option String :=
  if n = 1 then some "* "
  else if n = 2 then some "** "
  else if n = 3 then some "*** "
  else if n = 4 then some "**** "
  else if n = 5 then some "***** "
  else none

/-- `enumIndent` dict (writer.py lines 77-83): enumerated-list item markers
for levels 1..5; a missing key is `none` (Python `KeyError`). -/
def enumIndent (n : Nat) : Option String :=
  if n = 1 then some ". "
  else if n = 2 then some ".. "
  else if n = 3 then some "... "
  else if n = 4 then some ".... "
  else if n = 5 then some "..... "
  else none

/-- The figure stage buffer `self.lastFigure`: each slot initially the empty
string (falsy, modelled `none`), or a stashed node. -/
structure FigBuf where
  image : Option Node
  caption : Option Node
  legend : Option Node
  ref : Option Node

/-- Truthiness of a figure-buffer slot: the `""` sentinel is falsy; any
stashed node is truthy, since `docutils.nodes.Node.__bool__` returns `True`
unconditionally. -/
def slotTruthy : Option Node → Bool
  | none => false
  | some _ => true

/-- The mutable translator state of `AsciiDocTranslator` (writer.py lines
104-149); fields unread on every translated path are omitted.  `listLevel`
is set once in `__init__` and never updated.  `inAdminition` models the
attribute created by the misspelled assignment in `depart_caution`. -/
structure State where
  body : List String
  section_level : Int
  par_level : Int
  lists : List String
  listLevel : Int
  turnsInList : Int
  idcount : Nat
  inTable : Bool
  inDesc : Bool
  inList : Bool
  inField : Bool
  inImgLink : Bool
  inFigure : Bool
  lastFigure : FigBuf
  inTopicContents : Bool
  extLinkActive : Bool
  inAdmonition : Bool
  inAdminition : Bool
  tabColSpecs : List String
  inLineBlock : Bool
  inLiteralBlock : Bool
  inToctree : Bool
  inUseless : Bool
  inGlossary : Bool
  sourceFile : String
  idPool : List String
  linkType : Option String
  outputTOC : Bool
  defaultTableColAlign : String
  defaultTableColWidths : Bool

/-- `AsciiDocTranslator.__init__`: the fresh state of one translation run. -/
def initState : State where
  body := []
  section_level := 0
  par_level := -1
  lists := []
  listLevel := 0
  turnsInList := 0
  idcount := 0
  inTable := false
  inDesc := false
  inList := false
  inField := false
  inImgLink := false
  inFigure := false
  lastFigure := ⟨none, none, none, none⟩
  inTopicContents := false
  extLinkActive := false
  inAdmonition := false
  inAdminition := false
  tabColSpecs := []
  inLineBlock := false
  inLiteralBlock := false
  inToctree := false
  inUseless := false
  inGlossary := false
  sourceFile := ""
  idPool := []
  linkType := none
  outputTOC := false
  defaultTableColAlign := ""
  defaultTableColWidths := false

/-- Append one fragment to the output buffer (`self.body.append(...)`). -/
def State.emit (st : State) (s : String) : State :=
  { st with body := st.body ++ [s] }

/-- `visit_document` (writer.py lines 157-168): splits the `source`
attribute on "/" and "."; `node.get("source")` being `None` raises
`AttributeError` at `.split`. -/
def visit_document (source : Option String) (st : State) : Except PyExc State :=
  match source with
  | none => .error .attributeError
  | some src =>
    let parts := src.splitOn "/"
    let base := (parts.getLastD "").splitOn "."
    .ok { st with sourceFile := base.headD "" }

/-- `depart_document` (writer.py lines 170-174): no-op. -/
def depart_document (st : State) : State := st

/-- `visit_title` (writer.py lines 176-190): suppressed inside a contents
topic unless `outputTOC`; document parent gets the level-0 marker; section
parent gets `sectionEquals[self.section_level]` with `"= "` on `KeyError`;
table parent gets a caption dot. -/
def visit_title (parent : NTag) (st : State) : State :=
  if st.inTopicContents && !st.outputTOC then st
  else if parent = .document then
    st.emit ("\n\n" ++ (sectionEquals 0).getD "" ++ " ")
  else if parent = .section then
    let tstr := (sectionEquals st.section_level).getD "= "
    st.emit ("\n" ++ tstr ++ " ")
  else if parent = .table then
    st.emit "\n."
  else st

/-- `depart_title` (writer.py lines 192-198). -/
def depart_title (parent : NTag) (st : State) : State :=
  if st.inTopicContents && !st.outputTOC then st
  else if parent = .table then st.emit "\n"
  else st.emit "\n"

/-- `visit_Text` (writer.py lines 200-214): suppressed in a contents topic
and inside figures; inside a line block the payload gets a ` +`
continuation suffix; otherwise the raw payload is appended unescaped. -/
def visit_Text (st : State) (s : String) : State :=
  if st.inTopicContents && !st.outputTOC then st
  else if st.inFigure then st
  else if st.inLineBlock then st.emit (s ++ " +")
  else st.emit s

/-- `depart_Text` (writer.py lines 216-217): no-op. -/
def depart_Text (st : State) : State := st

/-- `visit_section` (writer.py lines 237-238). -/
def visit_section (st : State) : State :=
  { st with section_level := st.section_level + 1 }

/-- `depart_section` (writer.py lines 240-241). -/
def depart_section (st : State) : State :=
  { st with section_level := st.section_level - 1 }

/-- `visit_paragraph` (writer.py lines 243-255), including the `@indent`
decorator's increment of `par_level`. -/
def visit_paragraph (st : State) : State :=
  let st := { st with par_level := st.par_level + 1 }
  let nline :=
    if st.inDesc then ""
    else if st.inField then ""
    else if st.inTable || st.inList then ""
    else if st.inTopicContents && !st.outputTOC then ""
    else "\n"
  st.emit nline

/-- `depart_paragraph` (writer.py lines 257-269), including the `@dedent`
decorator's decrement of `par_level`.  `self.listLevel` is never updated
after `__init__`. -/
def depart_paragraph (st : State) : State :=
  let st := { st with par_level := st.par_level - 1 }
  let nline :=
    if st.listLevel = -1 then "\n\n"
    else if st.inTable then ""
    else if st.inField then ""
    else if st.inTopicContents && !st.outputTOC then ""
    else "\n"
  st.emit nline

/-- `visit_bullet_list` (writer.py lines 282-290). -/
def visit_bullet_list (st : State) : State :=
  if st.inTopicContents && !st.outputTOC then st
  else
    let st := { st with inList := true, lists := st.lists ++ ["bulleted"] }
    let st := if st.turnsInList = 0 then st.emit "\n" else st
    { st with turnsInList := st.turnsInList + 1 }

/-- `depart_bullet_list` (writer.py lines 292-300).  `self.lists.pop(-1)`
removes the last element. -/
def depart_bullet_list (st : State) : State :=
  if st.inTopicContents && !st.outputTOC then st
  else
    let st := st.emit "\n"
    let st := { st with lists := st.lists.dropLast,
                        turnsInList := st.turnsInList - 1 }
    if st.turnsInList ≤ 0 then { st with inList := false } else st

/-- `visit_enumerated_list` (writer.py lines 302-311): reads
`node["enumtype"]` only on the first list turn (`KeyError` when absent);
a present enumtype string is never Python `False`, so the `[enumtype]`
line is emitted whenever it was read. -/
def visit_enumerated_list (enumtype : Option String) (st : State) :
    Except PyExc State :=
  if st.turnsInList = 0 then
    match enumtype with
    | none => .error .keyError
    | some e =>
      let st := { st with inList := true, lists := st.lists ++ ["numbered"] }
      let st := st.emit ("\n[" ++ e ++ "]\n")
      .ok { st with turnsInList := st.turnsInList + 1 }
  else
    let st := { st with inList := true, lists := st.lists ++ ["numbered"] }
    .ok { st with turnsInList := st.turnsInList + 1 }

/-- `depart_enumerated_list` (writer.py lines 313-317). -/
def depart_enumerated_list (st : State) : State :=
  let st := { st with lists := st.lists.dropLast,
                      turnsInList := st.turnsInList - 1 }
  if st.turnsInList ≤ 0 then { st with inList := false } else st

/-- `visit_list_item` (writer.py lines 319-334): level is the list-stack
length; `"toctree" in str(classes)` suppresses the marker; otherwise
`bulletIndent[level]` when any stack entry is "bulleted", else
`enumIndent[level]` when any is "numbered" (a missing level key raises
`KeyError`), else the diagnostic line. -/
def visit_list_item (classes : List String) (st : State) : Except PyExc State :=
  if st.inTopicContents && !st.outputTOC then .ok st
  else
    let level := st.lists.length
    if strContainsSub (reprClasses classes) "toctree" then .ok (st.emit "")
    else if st.lists.contains "bulleted" then
      match bulletIndent level with
      | some s => .ok (st.emit s)
      | none => .error .keyError
    else if st.lists.contains "numbered" then
      match enumIndent level with
      | some s => .ok (st.emit s)
      | none => .error .keyError
    else .ok (st.emit "\nList indentation error!\n")

/-- `depart_list_item` (writer.py lines 337-343). -/
def depart_list_item (st : State) : State :=
  if st.inTopicContents && !st.outputTOC then st
  else if st.inTable then st.emit ""
  else st.emit "\n"

/-- `visit_note` (writer.py lines 533-540). -/
def visit_note (st : State) : State :=
  let st := { st with inAdmonition := true }
  let nline := if st.inList then "+\n[NOTE]\n" else "\n[NOTE]\n"
  st.emit (nline ++ "====\n")

/-- `depart_note` (writer.py lines 542-548): emits the closing delimiter and
clears `inAdmonition`. -/
def depart_note (st : State) : State :=
  let nline := if st.inList then "====\n\n" else "====\n"
  { st.emit nline with inAdmonition := false }

/-- `visit_tip` (writer.py lines 605-612). -/
def visit_tip (st : State) : State :=
  let st := { st with inAdmonition := true }
  let nline := if st.inList then "+\n[TIP]\n" else "\n[TIP]\n"
  st.emit (nline ++ "====\n")

/-- `depart_tip` (writer.py lines 614-620). -/
def depart_tip (st : State) : State :=
  let nline := if st.inList then "====\n\n" else "====\n"
  { st.emit nline with inAdmonition := false }

/-- `visit_warning` (writer.py lines 622-629). -/
def visit_warning (st : State) : State :=
  let st := { st with inAdmonition := true }
  let nline := if st.inList then "+\n[WARNING]\n" else "\n[WARNING]\n"
  st.emit (nline ++ "====\n")

/-- `depart_warning` (writer.py lines 631-637). -/
def depart_warning (st : State) : State :=
  let nline := if st.inList then "====\n\n" else "====\n"
  { st.emit nline with inAdmonition := false }

/-- `visit_important` (writer.py lines 651-658). -/
def visit_important (st : State) : State :=
  let st := { st with inAdmonition := true }
  let nline := if st.inList then "+\n[IMPORTANT]\n" else "\n[IMPORTANT]\n"
  st.emit (nline ++ "====\n")

/-- `depart_important` (writer.py lines 660-666). -/
def depart_important (st : State) : State :=
  let nline := if st.inList then "====\n\n" else "====\n"
  { st.emit nline with inAdmonition := false }

/-- `visit_caution` (writer.py lines 668-675). -/
def visit_caution (st : State) : State :=
  let st := { st with inAdmonition := true }
  let nline := if st.inList then "+\n[CAUTION]\n" else "\n[CAUTION]\n"
  st.emit (nline ++ "====\n")

/-- `depart_caution` (writer.py lines 677-684): the closing line is emitted,
but the final assignment is `self.inAdminition = False` — a misspelling that
creates a fresh attribute and leaves `inAdmonition` untouched. -/
def depart_caution (st : State) : State :=
  let nline := if st.inList then "====\n\n" else "====\n"
  { st.emit nline with inAdminition := false }

/-- `visit_reference` (writer.py lines 357-426).  `ns` is `str` of the last
node of `node.traverse(include_self=False)`; with no descendants the loop
body never runs and reading `ns` raises `UnboundLocalError`. -/
def visit_reference (refuri refid rname aname : Option String)
    (internal : Option Bool) (children : List Node) (st : State) :
    Except PyExc State :=
  let st := { st with extLinkActive := true, linkType := none }
  match (descList children).getLast? with
  | none => .error .unboundLocal
  | some lastN =>
    let ns := strRepr lastN
    let st := if pyStartsWith ns "<image" then { st with inImgLink := true } else st
    if st.inTopicContents && !st.outputTOC then .ok st
    else if st.inFigure then .ok st
    else if st.inImgLink then
      .ok (st.emit ("\n[link::" ++ optToStr refuri ++ "]"))
    else if st.inLiteralBlock then .ok st
    else if internal = some true && aname = some "" && st.inToctree then
      let st := { st with linkType := some "include" }
      .ok (st.emit ("include::" ++ optToStr refuri ++ "[leveloffset=+1]["))
    else if truthyStr refuri && truthyStr rname then
      let st := { st with linkType := some "link" }
      let uri := optToStr refuri
      let nline :=
        if strContainsSub uri " " || strContainsSub uri "^" ||
           strContainsSub uri "__" || pyStartsWith uri "\x7bfilename\x7d" ||
           pyStartsWith uri "/" then
          "link:++" ++ uri ++ "["
        else uri ++ "["
      .ok (st.emit nline)
    else if truthyStr refid then
      let st := { st with linkType := some "refx" }
      if st.inToctree = false then .ok (st.emit ("xref:" ++ optToStr refid ++ "["))
      else .ok st
    else if truthyStr refuri then
      let st := { st with linkType := some "refx" }
      let parts := (optToStr refuri).splitOn "#"
      let uri := parts.getD 1 (parts.headD "")
      if strContainsSub uri ".adoc" then
        .ok (st.emit ("xref:fileref=" ++ uri ++ "["))
      else if pyStartsWith uri "mailto" || pyStartsWith uri "http" then
        .ok (st.emit (uri ++ "["))
      else if aname = some ("#" ++ uri) then
        .ok { st.emit "\n//" with inUseless := true }
      else .ok (st.emit ("xref:" ++ uri ++ "["))
    else .ok st

/-- `depart_reference` (writer.py lines 428-438). -/
def depart_reference (st : State) : State :=
  if st.inTopicContents && !st.outputTOC then st
  else if st.inFigure then st
  else if st.inImgLink then { st with inImgLink := false }
  else if st.inLiteralBlock = false then st.emit "]"
  else st

/-- Elements of `pool` at least as long as `r`; the candidate in
`visit_target`'s retry loop grows, so this is a decreasing measure. -/
def poolAtLeast (r : String) (pool : List String) : Nat :=
  (pool.filter (fun s => r.length ≤ s.length)).length

/-- The `while True` retry loop of `visit_target` (writer.py lines 502-509):
an unregistered candidate is emitted and appended to the pool; a colliding
candidate is suffixed with "-duplicate" and that suffixed id is emitted
immediately, before the loop re-checks it.  Returns the emitted anchor
declarations and the new pool. -/
def registerLoop (refid : String) (pool : List String) :
    List String × List String :=
  if h : refid ∈ pool then
    let r := refid ++ "-duplicate"
    let res := registerLoop r pool
    (("[id=\"" ++ r ++ "\"]") :: res.1, res.2)
  else
    (["[id=\"" ++ refid ++ "\"]"], pool ++ [refid])
termination_by poolAtLeast refid pool
decreasing_by
  unfold poolAtLeast
  have hd10 : (refid ++ "-duplicate").length = refid.length + 10 := by
    simp [String.length_append]
    decide
  have hsub :
      List.Sublist (pool.filter (fun s => (refid ++ "-duplicate").length ≤ s.length))
        (pool.filter (fun s => refid.length ≤ s.length)) := by
    refine List.monotone_filter_right pool (fun s hs => ?_)
    simp only [decide_eq_true_eq, hd10] at hs ⊢
    omega
  rcases Nat.lt_or_ge
      (pool.filter (fun s => (refid ++ "-duplicate").length ≤ s.length)).length
      (pool.filter (fun s => refid.length ≤ s.length)).length with hlt | hge
  · exact hlt
  · exfalso
    have hlen : (pool.filter (fun s => (refid ++ "-duplicate").length ≤ s.length)).length =
        (pool.filter (fun s => refid.length ≤ s.length)).length :=
      Nat.le_antisymm hsub.length_le hge
    have heq := hsub.eq_of_length hlen
    have hmem : refid ∈ pool.filter (fun s => refid.length ≤ s.length) := by
      simp [List.mem_filter, h]
    rw [← heq] at hmem
    have h2 := (List.mem_filter.mp hmem).2
    rw [decide_eq_true_eq, hd10] at h2
    omega

/-- `visit_target` (writer.py lines 492-514): a truthy `refid` runs the
registration loop; otherwise truthy `ids` plus `refuri` emit nothing; else
the diagnostic string. -/
def visit_target (refid : Option String) (ids : List String)
    (refuri : Option String) (st : State) : State :=
  if truthyStr refid then
    let res := registerLoop (optToStr refid) st.idPool
    { st with body := st.body ++ res.1, idPool := res.2 }
  else if !ids.isEmpty && truthyStr refuri then
    st.emit ""
  else
    st.emit "Warning: Problem with targets!"

/-- `depart_target` (writer.py lines 516-517). -/
def depart_target (st : State) : State := st.emit ""

/-- The stash pass of `visit_figure` (writer.py lines 787-801): scan every
descendant in document order and stash images, captions, legends and
references into `lastFigure` by the `startswith` of their `str`. -/
def figScan (fb : FigBuf) (ns : List Node) : FigBuf :=
  ns.foldl
    (fun fb n =>
      let s := strRepr n
      if pyStartsWith s "<image" then { fb with image := some n }
      else if pyStartsWith s "<caption" then { fb with caption := some n }
      else if pyStartsWith s "<legend" then { fb with legend := some n }
      else if pyStartsWith s "<reference" then { fb with ref := some n }
      else fb)
    fb

/-- `visit_figure` (writer.py lines 787-801). -/
def visit_figure (children : List Node) (st : State) : State :=
  let st := { st with inFigure := true }
  { st with lastFigure := figScan st.lastFigure (descList children) }

/-- The `refuri` of a stashed reference slot (`.get("refuri")`). -/
def slotRefuri : Option Node → Option String
  | some (.reference refuri _ _ _ _ _) => refuri
  | _ => none

/-- The `uri` of a stashed image slot (`.get("uri")`). -/
def slotUri : Option Node → Option String
  | some (.image uri _) => uri
  | _ => none

/-- The `alt` of a stashed image slot (`.get("alt")`). -/
def slotAlt : Option Node → Option String
  | some (.image _ alt) => alt
  | _ => none

/-- `astext` of a caption/legend slot; the `""` sentinel has no `astext`
method, the raised `AttributeError` is caught and yields `""`. -/
def slotAstext : Option Node → String
  | none => ""
  | some n => astext n

/-- `depart_figure` (writer.py lines 806-838): emits the combined
caption+legend title line (escaping a leading dot), then the link line,
then the image line — each only when the corresponding slot holds a
stashed node rather than the falsy `""` sentinel — then clears the flag
and the buffer. -/
def depart_figure (st : State) : State :=
  let fb := st.lastFigure
  let st :=
    if slotTruthy fb.caption || slotTruthy fb.legend then
      let cap := slotAstext fb.caption
      let leg := slotAstext fb.legend
      let cap := if pyStartsWith cap "." then "\\" ++ cap else cap
      st.emit ("\n." ++ cap ++ " " ++ leg ++ "\n")
    else st
  let st :=
    if slotTruthy fb.ref then
      st.emit ("[link=" ++ optToStr (slotRefuri fb.ref) ++ "]\n")
    else st
  let st :=
    if slotTruthy fb.image then
      st.emit ("image::" ++ optToStr (slotUri fb.image) ++ "[" ++
        optToStr (some ((slotAlt fb.image).getD "")) ++ "]\n")
    else st
  { st with inFigure := false, lastFigure := ⟨none, none, none, none⟩ }

/-- `visit_image` (writer.py lines 724-737): inside a figure nothing is
emitted; otherwise the image-embed line. -/
def visit_image (uri : Option String) (alt : Option String) (st : State) :
    State :=
  if st.inFigure then st
  else
    let a := (alt).getD ""
    st.emit ("\nimage::" ++ optToStr uri ++ "[" ++ a ++ "]")

/-- `depart_image` (writer.py lines 739-744). -/
def depart_image (st : State) : State :=
  if st.inFigure then st else st.emit "\n\n"

/-- `visit_caption` (writer.py lines 840-845). -/
def visit_caption (st : State) : State :=
  if st.inFigure then st else st.emit "\n:toctitle: "

/-- `depart_caption` (writer.py lines 847-849). -/
def depart_caption (st : State) : State :=
  if !st.inFigure then st.emit "\n\n" else st

/-- `visit_legend` (writer.py lines 851-853). -/
def visit_legend (st : State) : State :=
  if !st.inFigure then st.emit "LEGEND:" else st

/-- `depart_legend` (writer.py lines 855-857). -/
def depart_legend (st : State) : State :=
  if !st.inFigure then st.emit ":LEGEND" else st

/-- `visit_footnote_reference` (writer.py lines 746-752): an absent `refid`
attribute means `node.get("refid")` is `None`, and `None[0]` raises
`TypeError`, which the `except KeyError` clause does not catch; on an
empty string the subscript raises `IndexError`.  Otherwise the opening
macro with the first character of the refid is emitted. -/
def visit_footnote_reference (refid : Option String) (st : State) :
    Except PyExc State :=
  match refid with
  | none => .error .typeError
  | some r =>
    match r.data with
    | [] => .error .indexError
    | c :: _ => .ok (st.emit ("footnoteref:[" ++ String.singleton c ++ ","))

/-- `depart_footnote_reference` (writer.py lines 754-755). -/
def depart_footnote_reference (st : State) : State := st.emit "] "

/-- `visit_table` (writer.py lines 860-861). -/
def visit_table (st : State) : State := { st with inTable := true }

/-- `depart_table` (writer.py lines 863-864). -/
def depart_table (st : State) : State := { st with inTable := false }

/-- Python 3 `round` of the nonnegative fraction `num/den` to an integer:
round half to even. -/
def pyRound (num den : Nat) : Nat :=
  let q := num / den
  let r := num % den
  if 2 * r < den then q
  else if den < 2 * r then q + 1
  else if q % 2 = 0 then q else q + 1

/-- The colspec scan of `visit_tgroup` (writer.py lines 873-881): sum the
declared column widths and convert each to a rounded percentage of the
sum.  Python computes `round(c / tableWidth * 100)` on binary floats; the
exact rational value `c*100/tableWidth` is used here.  An all-zero
nonempty width list would raise `ZeroDivisionError` in Python. -/
def tgroupPercents (widths : List Nat) : List Nat :=
  let tableWidth : Nat := widths.foldl (· + ·) 0
  widths.map (fun c => pyRound (c * 100) tableWidth)

/-- The spec-normalization loop of `visit_tgroup` (writer.py lines 889-897):
Python iterates over the live list, re-finding each value's first index
with `specs.index(spec)` and updating in place; "r"/"R" becomes `>`,
"c"/"C" becomes `^`, any other (non-int) value becomes the default
alignment. -/
def normalizeSpecs (defaultAlign : String) (specs : List String) :
    List String :=
  (List.range specs.length).foldl
    (fun cur k =>
      let spec := cur.getD k ""
      let i := cur.findIdx (fun s => s = spec)
      let v :=
        if pyLower spec = "r" then ">"
        else if pyLower spec = "c" then "^"
        else defaultAlign
      cur.set i v)
    specs

/-- The header-line fold of `visit_tgroup` (writer.py lines 899-906): one
`alignment` + `width%` chunk per column of `clist`, comma-separated;
indexing `specs[i]` past its end raises `IndexError`. -/
def tgroupCline (specs : List String) (clist : List Nat) :
    Except PyExc String :=
  (List.range clist.length).foldlM
    (fun cline i =>
      let sep := if i = clist.length - 1 then "" else ","
      match specs.get? i, clist.get? i with
      | some sp, some c => .ok (cline ++ sp ++ toString c ++ "%" ++ sep)
      | _, _ => .error .indexError)
    ""

/-- `visit_tgroup` (writer.py lines 867-914): computes width percentages
when `defaultTableColWidths` is set, normalizes the alignment specs
(defaulting to one per declared column), and emits the `[cols=...]`
header plus the `|===` opener as one fragment. -/
def visit_tgroup (cols : Nat) (children : List Node) (st : State) :
    Except PyExc State :=
  let colwidths :=
    (descList children).filterMap
      (fun n => match n with | .colspec w => some w | _ => none)
  if st.defaultTableColWidths && !colwidths.isEmpty &&
      colwidths.foldl (· + ·) 0 = 0 then
    .error .zeroDivision
  else
    let clist := if st.defaultTableColWidths then tgroupPercents colwidths else []
    let specs₀ := if st.tabColSpecs = [] then
        List.replicate cols st.defaultTableColAlign
      else st.tabColSpecs
    let specs := normalizeSpecs st.defaultTableColAlign specs₀
    match tgroupCline specs clist with
    | .error e => .error e
    | .ok cline =>
      let specline :=
        if !cline.isEmpty then "[cols=\"" ++ cline ++ "\",options=\"header\"]\n"
        else "[options=\"header\"]\n"
      .ok (st.emit (specline ++ "|===\n"))

/-- `depart_tgroup` (writer.py lines 916-918). -/
def depart_tgroup (st : State) : State := st.emit "|===\n"

/-- `visit_row`/`depart_row` (writer.py lines 945-949). -/
def depart_row (st : State) : State := st.emit "\n"

/-- `visit_entry` (writer.py lines 952-953). -/
def visit_entry (st : State) : State := st.emit "|"

mutual

/-- The docutils `walkabout` traversal: dispatch the entry rule for the
node (an exception aborts the run), walk the children with this node as
parent, then dispatch the exit rule.  `parent` is the tag of the node's
parent, consulted by `visit_title`. -/
def walkNode (parent : NTag) (st : State) : Node → Except PyExc State
  | .text s => .ok (depart_Text (visit_Text st s))
  | .document src ch => do
    let st ← visit_document src st
    let st ← walkList .document st ch
    .ok (depart_document st)
  | .section ch => do
    let st ← walkList .section (visit_section st) ch
    .ok (depart_section st)
  | .title ch => do
    let st ← walkList .other (visit_title parent st) ch
    .ok (depart_title parent st)
  | .paragraph ch => do
    let st ← walkList .other (visit_paragraph st) ch
    .ok (depart_paragraph st)
  | .bullet_list ch => do
    let st ← walkList .other (visit_bullet_list st) ch
    .ok (depart_bullet_list st)
  | .enumerated_list enumtype ch => do
    let st ← visit_enumerated_list enumtype st
    let st ← walkList .other st ch
    .ok (depart_enumerated_list st)
  | .list_item classes ch => do
    let st ← visit_list_item classes st
    let st ← walkList .other st ch
    .ok (depart_list_item st)
  | .reference refuri refid rname aname internal ch => do
    let st ← visit_reference refuri refid rname aname internal ch st
    let st ← walkList .other st ch
    .ok (depart_reference st)
  | .target refid ids refuri =>
    .ok (depart_target (visit_target refid ids refuri st))
  | .figure ch => do
    let st ← walkList .other (visit_figure ch st) ch
    .ok (depart_figure st)
  | .image uri alt =>
    .ok (depart_image (visit_image uri alt st))
  | .caption ch => do
    let st ← walkList .other (visit_caption st) ch
    .ok (depart_caption st)
  | .legend ch => do
    let st ← walkList .other (visit_legend st) ch
    .ok (depart_legend st)
  | .note ch => do
    let st ← walkList .other (visit_note st) ch
    .ok (depart_note st)
  | .tip ch => do
    let st ← walkList .other (visit_tip st) ch
    .ok (depart_tip st)
  | .warning ch => do
    let st ← walkList .other (visit_warning st) ch
    .ok (depart_warning st)
  | .important ch => do
    let st ← walkList .other (visit_important st) ch
    .ok (depart_important st)
  | .caution ch => do
    let st ← walkList .other (visit_caution st) ch
    .ok (depart_caution st)
  | .footnote_reference refid ch => do
    let st ← visit_footnote_reference refid st
    let st ← walkList .other st ch
    .ok (depart_footnote_reference st)
  | .table ch => do
    let st ← walkList .table (visit_table st) ch
    .ok (depart_table st)
  | .tgroup cols ch => do
    let st ← visit_tgroup cols ch st
    let st ← walkList .other st ch
    .ok (depart_tgroup st)
  | .colspec _ => .ok st
  | .row ch => do
    let st ← walkList .other st ch
    .ok (depart_row st)
  | .entry ch => do
    let st ← walkList .other (visit_entry st) ch
    .ok st
termination_by structural n => n

/-- Walk a list of sibling nodes left to right, threading the state. -/
def walkList (parent : NTag) (st : State) : List Node → Except PyExc State
  | [] => .ok st
  | n :: rest => do
    let st ← walkNode parent st n
    walkList parent st rest
termination_by structural l => l

end

/-- One full translation run: `AsciiDocWriter.translate` builds a fresh
`AsciiDocTranslator` (fresh `initState`), walks the document, and joins
the body fragments (`astext`). -/
def translatorRun (doc : Node) : Except PyExc String :=
  (walkNode .other initState doc).map (fun st => String.join st.body)

/-- The writer object: it owns the document and remembers the last
`translate` output (`self.output`). -/
structure AsciiDocWriter where
  document : Node
  output : Option (Except PyExc String)

/-- `AsciiDocWriter.translate` (writer.py lines 33-36): a fresh translator
instance is created for the run, so no translator state survives from any
earlier call; only `self.output` is overwritten. -/
def AsciiDocWriter.translate (w : AsciiDocWriter) : AsciiDocWriter :=
  { w with output := some (translatorRun w.document) }

set_option maxRecDepth 8000

/-! Helper lemmas about the anchor-registration loop. -/

theorem length_append_dup (r : String) :
    (r ++ "-duplicate").length = r.length + 10 := by
  simp [String.length_append]
  decide

/-- Appending the disambiguation suffix changes the string. -/
theorem append_dup_ne (r : String) : r ++ "-duplicate" ≠ r := by
  intro he
  have hl := congrArg String.length he
  rw [length_append_dup] at hl
  omega

/-- Unfolding `registerLoop` on a fresh candidate. -/
theorem registerLoop_free (r : String) (pool : List String) (h : r ∉ pool) :
    registerLoop r pool = (["[id=\"" ++ r ++ "\"]"], pool ++ [r]) := by
  rw [registerLoop]
  simp [h]

/-- Unfolding `registerLoop` on a colliding candidate. -/
theorem registerLoop_hit (r : String) (pool : List String) (h : r ∈ pool) :
    registerLoop r pool =
      (("[id=\"" ++ (r ++ "-duplicate") ++ "\"]") ::
          (registerLoop (r ++ "-duplicate") pool).1,
        (registerLoop (r ++ "-duplicate") pool).2) := by
  rw [registerLoop]
  simp [h]

/-- The loop always appends exactly one fresh identifier to the pool
(induction on the loop measure). -/
theorem registerLoop_snd_aux : ∀ (n : Nat) (r : String) (pool : List String),
    poolAtLeast r pool ≤ n →
    ∃ w, (registerLoop r pool).2 = pool ++ [w] ∧ w ∉ pool := by
  intro n
  induction n with
  | zero =>
    intro r pool hle
    have hr : r ∉ pool := by
      intro hmem
      have hpos : 0 < poolAtLeast r pool := by
        unfold poolAtLeast
        have hf : r ∈ pool.filter (fun s => r.length ≤ s.length) := by
          simp [List.mem_filter, hmem]
        exact List.length_pos.mpr (List.ne_nil_of_mem hf)
      omega
    exact ⟨r, by rw [registerLoop_free r pool hr], hr⟩
  | succ n ih =>
    intro r pool hle
    by_cases hr : r ∈ pool
    · have hdec : poolAtLeast (r ++ "-duplicate") pool < poolAtLeast r pool := by
        unfold poolAtLeast
        have hd10 : (r ++ "-duplicate").length = r.length + 10 := length_append_dup r
        have hsub :
            List.Sublist (pool.filter (fun s => (r ++ "-duplicate").length ≤ s.length))
              (pool.filter (fun s => r.length ≤ s.length)) := by
          refine List.monotone_filter_right pool (fun s hs => ?_)
          simp only [decide_eq_true_eq, hd10] at hs ⊢
          omega
        rcases Nat.lt_or_ge
            (pool.filter (fun s => (r ++ "-duplicate").length ≤ s.length)).length
            (pool.filter (fun s => r.length ≤ s.length)).length with hlt | hge
        · exact hlt
        · exfalso
          have hlen : (pool.filter (fun s => (r ++ "-duplicate").length ≤ s.length)).length =
              (pool.filter (fun s => r.length ≤ s.length)).length :=
            Nat.le_antisymm hsub.length_le hge
          have heq := hsub.eq_of_length hlen
          have hmem : r ∈ pool.filter (fun s => r.length ≤ s.length) := by
            simp [List.mem_filter, hr]
          rw [← heq] at hmem
          have h2 := (List.mem_filter.mp hmem).2
          rw [decide_eq_true_eq, hd10] at h2
          omega
      obtain ⟨w, hw, hwm⟩ := ih (r ++ "-duplicate") pool (by omega)
      refine ⟨w, ?_, hwm⟩
      rw [registerLoop_hit r pool hr]
      simpa using hw
    · exact ⟨r, by rw [registerLoop_free r pool hr], hr⟩

/-- `registerLoop` extends the pool by exactly one fresh identifier. -/
theorem registerLoop_snd (r : String) (pool : List String) :
    ∃ w, (registerLoop r pool).2 = pool ++ [w] ∧ w ∉ pool := by
  obtain ⟨w, hw, hwm⟩ :=
    registerLoop_snd_aux (poolAtLeast r pool) r pool (Nat.le_refl _)
  exact ⟨w, by rw [hw], hwm⟩

/-- `visit_target` on a truthy refid, written with explicit registry and
buffer updates. -/
theorem visit_target_truthy (b : String) (hb : b.isEmpty = false) (st : State) :
    visit_target (some b) [] none st =
      { st with body := st.body ++ (registerLoop b st.idPool).1,
                idPool := (registerLoop b st.idPool).2 } := by
  simp [visit_target, truthyStr, hb, optToStr]

/-- Claim C1 counterexample: a list item at stack depth 6 makes the
translator raise `KeyError` (the `bulletIndent` dict has no key 6) instead
of emitting the depth-5 prefix plus a diagnostic; and with list stack
["bulleted", "numbered"] — the enclosing list is enumerated — the emitted
prefix is "** ", not ".. ", because `visit_list_item` tests stack
membership with "bulleted" first rather than the top of the stack. -/
theorem list_item_depth6_raises :
    visit_list_item []
      { initState with lists :=
          ["bulleted", "bulleted", "bulleted", "bulleted", "bulleted", "bulleted"] } =
      .error .keyError ∧
    (visit_list_item []
        { initState with lists := ["bulleted", "numbered"] }).toOption.map State.body =
      some ["** "] :=
  ⟨rfl, rfl⟩

/-- Claim C1 (amended): for a non-toctree list item at stack depth d with
1 ≤ d ≤ 5, the emitted prefix is d repetitions of the marker followed by
one space, the marker being chosen by stack membership — "*" if any stack
entry is a bulleted list, otherwise "." when the entries are enumerated;
at depth 6 the translator raises `KeyError` rather than emitting a
diagnostic. -/
theorem list_item_indent (st : State) (classes : List String) (d : Nat)
    (hs : (st.inTopicContents && !st.outputTOC) = false)
    (hc : strContainsSub (reprClasses classes) "toctree" = false)
    (hlen : st.lists.length = d)
    (hk : ∀ k ∈ st.lists, k = "bulleted" ∨ k = "numbered") :
    (1 ≤ d → d ≤ 5 →
      visit_list_item classes st =
        .ok (st.emit ((if st.lists.contains "bulleted"
            then String.mk (List.replicate d (Char.ofNat 42))
            else String.mk (List.replicate d (Char.ofNat 46))) ++ " "))) ∧
    (d = 6 → visit_list_item classes st = .error .keyError) := by
  have hnonempty : 1 ≤ d → st.lists ≠ [] := by
    intro h1 hnil
    rw [hnil] at hlen
    simp at hlen
    omega
  have hnum : 1 ≤ d → st.lists.contains "bulleted" = false →
      st.lists.contains "numbered" = true := by
    intro h1 hnb
    obtain ⟨k, hkmem⟩ := List.exists_mem_of_ne_nil _ (hnonempty h1)
    rcases hk k hkmem with hkb | hkn
    · exfalso
      have hct : st.lists.contains "bulleted" = true :=
        List.elem_eq_true_of_mem (by rw [← hkb]; exact hkmem)
      rw [hct] at hnb
      cases hnb
    · exact List.elem_eq_true_of_mem (by rw [← hkn]; exact hkmem)
  constructor
  · intro h1 h5
    simp only [visit_list_item, hs, hc, Bool.false_eq_true, if_false, hlen]
    rcases hcb : st.lists.contains "bulleted" with _ | _
    · have hcn := hnum h1 hcb
      simp only [hcn, if_true, if_false]
      interval_cases d <;> simp [enumIndent] <;> rfl
    · simp only [if_true]
      interval_cases d <;> simp [bulletIndent] <;> rfl
  · intro h6
    subst h6
    simp only [visit_list_item, hs, hc, Bool.false_eq_true, if_false, hlen]
    rcases hcb : st.lists.contains "bulleted" with _ | _
    · have hcn := hnum (by omega) hcb
      have hmem : "numbered" ∈ st.lists := List.mem_of_elem_eq_true hcn
      simp [hcn, hmem, enumIndent]
    · simp [bulletIndent]

/-- Claim C1 amended, witnessed at depth 1 on a bulleted stack. -/
theorem list_item_indent_wit :
    visit_list_item [] { initState with lists := ["bulleted"] } =
      .ok (State.emit { initState with lists := ["bulleted"] }
        ((if List.contains ["bulleted"] "bulleted"
          then String.mk (List.replicate 1 (Char.ofNat 42))
          else String.mk (List.replicate 1 (Char.ofNat 46))) ++ " ")) :=
  (list_item_indent { initState with lists := ["bulleted"] } [] 1
    rfl rfl rfl (by decide)).1 (by decide) (by decide)

/-- Claim C2: a title of a section at depth n, 1 ≤ n ≤ 5, emits exactly
n+1 repetitions of the heading marker "=" followed by a space (after a
newline), and a title whose parent is the document emits the single
document-title marker "= ". -/
theorem title_heading_marker (st : State) (n : Nat) (h1 : 1 ≤ n) (h5 : n ≤ 5)
    (hl : st.section_level = (n : Int))
    (hs : (st.inTopicContents && !st.outputTOC) = false) :
    visit_title .section st =
      st.emit ("\n" ++ String.mk (List.replicate (n + 1) (Char.ofNat 61)) ++ " ") ∧
    visit_title .document st = st.emit "\n\n= " := by
  constructor
  · simp only [visit_title, hs, Bool.false_eq_true, if_false, hl]
    interval_cases n <;> simp [sectionEquals] <;> rfl
  · simp only [visit_title, hs, Bool.false_eq_true, if_false]
    rfl

/-- Claim C2, witnessed at section depth 2. -/
theorem title_heading_marker_wit :
    visit_title .section { initState with section_level := 2 } =
      State.emit { initState with section_level := 2 }
        ("\n" ++ String.mk (List.replicate 3 (Char.ofNat 61)) ++ " ") ∧
    visit_title .document { initState with section_level := 2 } =
      State.emit { initState with section_level := 2 } "\n\n= " :=
  title_heading_marker { initState with section_level := 2 } 2
    (by decide) (by decide) rfl rfl

/-- Claim C3: for a figure whose children are, in any of the six orders,
an image (uri img.png), a caption with text "Result" and a reference to
http://x, the traversal of the subtree itself emits nothing (the in-figure
flag suppresses all three nodes' own rules), and `depart_figure` then
emits, in this fixed order: the caption/title line containing "Result",
the link line referencing http://x, and the image-embed line.  The last
conjuncts record that the three fragments contain "Result", "http://x"
and the image-embed macro respectively. -/
theorem figure_reorders_elements :
    ((walkNode .other initState (.figure [.caption [.text "Result"],
        .reference (some "http://x") none none none none [.text "x"],
        .image (some "img.png") none])).toOption.map State.body =
      some ["\n.Result \n", "[link=http://x]\n", "image::img.png[]\n"]) ∧
    ((walkNode .other initState (.figure [.caption [.text "Result"],
        .image (some "img.png") none,
        .reference (some "http://x") none none none none [.text "x"]])).toOption.map
        State.body =
      some ["\n.Result \n", "[link=http://x]\n", "image::img.png[]\n"]) ∧
    ((walkNode .other initState
        (.figure [.reference (some "http://x") none none none none [.text "x"],
        .caption [.text "Result"],
        .image (some "img.png") none])).toOption.map State.body =
      some ["\n.Result \n", "[link=http://x]\n", "image::img.png[]\n"]) ∧
    ((walkNode .other initState
        (.figure [.reference (some "http://x") none none none none [.text "x"],
        .image (some "img.png") none,
        .caption [.text "Result"]])).toOption.map State.body =
      some ["\n.Result \n", "[link=http://x]\n", "image::img.png[]\n"]) ∧
    ((walkNode .other initState (.figure [.image (some "img.png") none,
        .caption [.text "Result"],
        .reference (some "http://x") none none none none [.text "x"]])).toOption.map
        State.body =
      some ["\n.Result \n", "[link=http://x]\n", "image::img.png[]\n"]) ∧
    ((walkNode .other initState (.figure [.image (some "img.png") none,
        .reference (some "http://x") none none none none [.text "x"],
        .caption [.text "Result"]])).toOption.map State.body =
      some ["\n.Result \n", "[link=http://x]\n", "image::img.png[]\n"]) ∧
    ((walkList .other
        (visit_figure [.caption [.text "Result"],
          .reference (some "http://x") none none none none [.text "x"],
          .image (some "img.png") none] initState)
        [.caption [.text "Result"],
          .reference (some "http://x") none none none none [.text "x"],
          .image (some "img.png") none]).toOption.map State.body = some []) ∧
    (strContainsSub "\n.Result \n" "Result" = true) ∧
    (strContainsSub "[link=http://x]\n" "http://x" = true) ∧
    (strContainsSub "image::img.png[]\n" "image::" = true) := by
  refine ⟨?_, ?_, ?_, ?_, ?_, ?_, ?_, ?_, ?_, ?_⟩ <;> decide

/-- Claim C4 counterexample: visiting two targets with the same base
identifier "x" emits the anchor declarations [id="x"], [id="x-duplicate"],
[id="x-duplicate"] — the identifier "x-duplicate" is emitted twice, so the
emitted declarations are not pairwise distinct. -/
theorem target_duplicate_emitted :
    (visit_target (some "x") [] none (visit_target (some "x") [] none initState)).body =
      ["[id=\"x\"]", "[id=\"x-duplicate\"]", "[id=\"x-duplicate\"]"] ∧
    ¬ ((visit_target (some "x") [] none
        (visit_target (some "x") [] none initState)).body).Nodup := by
  have e1 : registerLoop "x" [] = (["[id=\"x\"]"], ["x"]) := by
    rw [registerLoop_free "x" [] (by simp)]
    rfl
  have e2 : registerLoop "x" ["x"] =
      (["[id=\"x-duplicate\"]", "[id=\"x-duplicate\"]"], ["x", "x-duplicate"]) := by
    rw [registerLoop_hit "x" ["x"] (by simp)]
    rw [registerLoop_free ("x" ++ "-duplicate") ["x"] (by simp [append_dup_ne])]
    rfl
  have hb : ("x" : String).isEmpty = false := by decide
  rw [visit_target_truthy "x" hb initState, visit_target_truthy "x" hb]
  have hip : initState.idPool = [] := rfl
  have hbo : initState.body = [] := rfl
  simp only [hip, hbo, e1]
  simp only [e2]
  exact ⟨rfl, by decide⟩

/-- Claim C4 (amended): on a collision the candidate is suffixed with
"-duplicate" and re-checked until unique, and the finally accepted
identifier is recorded exactly once — the registry stays duplicate-free —
but the accepted identifier's anchor declaration is emitted once per
collision attempt and once on acceptance, so emitted declarations can
repeat an identifier. -/
theorem target_registry_unique (r : String) (pool : List String)
    (hp : pool.Nodup) :
    ((registerLoop r pool).2).Nodup ∧
    ∃ w, (registerLoop r pool).2 = pool ++ [w] ∧ w ∉ pool := by
  obtain ⟨w, hw, hwm⟩ := registerLoop_snd r pool
  refine ⟨?_, w, hw, hwm⟩
  rw [hw]
  exact hp.append (List.nodup_singleton w)
    (fun a ha hb => by simp at hb; subst hb; exact hwm ha)

/-- Claim C4 amended, witnessed on the empty registry. -/
theorem target_registry_unique_wit :
    ((registerLoop "x" []).2).Nodup ∧
    ∃ w, (registerLoop "x" []).2 = [] ++ [w] ∧ w ∉ ([] : List String) :=
  target_registry_unique "x" [] List.nodup_nil

/-- Claim C5: visiting two targets with the same nonempty base identifier b
registers [b, b ++ "-duplicate"]: two distinct identifiers, the second
being the first with the deterministic suffix, and both retained in
`idPool`. -/
theorem target_two_identical (b : String) (hb : b ≠ "") :
    (visit_target (some b) [] none (visit_target (some b) [] none initState)).idPool =
      [b, b ++ "-duplicate"] ∧
    b ≠ b ++ "-duplicate" ∧
    b ∈ (visit_target (some b) [] none (visit_target (some b) [] none initState)).idPool ∧
    (b ++ "-duplicate") ∈
      (visit_target (some b) [] none (visit_target (some b) [] none initState)).idPool := by
  have hbe : b.isEmpty = false := by
    rcases hh : b.isEmpty with _ | _
    · rfl
    · exact absurd ((String.isEmpty_iff b).mp hh) hb
  have e1 : registerLoop b [] = (["[id=\"" ++ b ++ "\"]"], [b]) :=
    registerLoop_free b [] (by simp)
  have e2 : registerLoop b [b] =
      (("[id=\"" ++ (b ++ "-duplicate") ++ "\"]") ::
          (registerLoop (b ++ "-duplicate") [b]).1,
        (registerLoop (b ++ "-duplicate") [b]).2) :=
    registerLoop_hit b [b] (by simp)
  have e3 : registerLoop (b ++ "-duplicate") [b] =
      (["[id=\"" ++ (b ++ "-duplicate") ++ "\"]"], [b] ++ [b ++ "-duplicate"]) :=
    registerLoop_free (b ++ "-duplicate") [b] (by simp [append_dup_ne])
  have h2 : (visit_target (some b) [] none
      (visit_target (some b) [] none initState)).idPool = [b, b ++ "-duplicate"] := by
    rw [visit_target_truthy b hbe initState, visit_target_truthy b hbe]
    have hip : initState.idPool = [] := rfl
    simp only [hip, e1]
    simp only [e2, e3]
    rfl
  refine ⟨h2, fun he => append_dup_ne b he.symm, ?_, ?_⟩ <;> rw [h2] <;> simp

/-- Claim C5, witnessed at base identifier "x". -/
theorem target_two_identical_wit :
    (visit_target (some "x") [] none (visit_target (some "x") [] none initState)).idPool =
      ["x", "x" ++ "-duplicate"] ∧
    "x" ≠ "x" ++ "-duplicate" ∧
    "x" ∈ (visit_target (some "x") [] none
      (visit_target (some "x") [] none initState)).idPool ∧
    ("x" ++ "-duplicate") ∈
      (visit_target (some "x") [] none (visit_target (some "x") [] none initState)).idPool :=
  target_two_identical "x" (by decide)

/-- Claim C6: a footnote-reference node without a `refid` attribute raises
`TypeError` (`None[0]`, not caught by the `except KeyError` clause), and a
reference node with no children raises `UnboundLocalError` (the `ns` loop
variable is never bound) — both abort the traversal, contradicting the
claim that missing data never raises.  A reference with a child but no
attributes does complete, emitting only the child text and the closing
bracket. -/
theorem reference_missing_attrs_raise :
    visit_footnote_reference none initState = .error .typeError ∧
    visit_reference none none none none none [] initState = .error .unboundLocal ∧
    walkNode .other initState (.footnote_reference none []) = .error .typeError ∧
    walkNode .other initState (.reference none none none none none []) =
      .error .unboundLocal ∧
    (walkNode .other initState
        (.reference none none none none none [.text "t"])).toOption.map State.body =
      some ["t", "]"] :=
  ⟨rfl, rfl, rfl, rfl, rfl⟩

/-- Claim C7: note, tip, warning and important clear `inAdmonition` on
exit, but `depart_caution` assigns the misspelled attribute `inAdminition`
and leaves `inAdmonition` set; the closing delimiter itself (with the
extra blank line inside a list) is emitted for caution as for the
others. -/
theorem caution_flag_not_cleared :
    (depart_caution (visit_caution initState)).inAdmonition = true ∧
    (depart_note (visit_note initState)).inAdmonition = false ∧
    (depart_tip (visit_tip initState)).inAdmonition = false ∧
    (depart_warning (visit_warning initState)).inAdmonition = false ∧
    (depart_important (visit_important initState)).inAdmonition = false ∧
    (depart_caution (visit_caution initState)).body =
      ["\n[CAUTION]\n====\n", "====\n"] ∧
    (depart_caution { visit_caution initState with inList := true }).body =
      ["\n[CAUTION]\n====\n", "====\n\n"] :=
  ⟨rfl, rfl, rfl, rfl, rfl, rfl, rfl⟩

/-- Claim C8: a 2-column row group with colspec widths [30, 70] under
`defaultTableColWidths = true` (the compute-column-width-percentages
option) emits the header line containing the percentages 30% and 70%, and
the computed percentages sum to 100. -/
theorem tgroup_width_percentages :
    (visit_tgroup 2 [.colspec 30, .colspec 70]
        { initState with defaultTableColWidths := true }).toOption.map State.body =
      some ["[cols=\"30%,70%\",options=\"header\"]\n|===\n"] ∧
    tgroupPercents [30, 70] = [30, 70] ∧
    (tgroupPercents [30, 70]).foldl (· + ·) 0 = 100 ∧
    strContainsSub "[cols=\"30%,70%\",options=\"header\"]\n|===\n" "30%" = true ∧
    strContainsSub "[cols=\"30%,70%\",options=\"header\"]\n|===\n" "70%" = true := by
  refine ⟨?_, ?_, ?_, ?_, ?_⟩ <;> decide

/-- Claim C9: `translate` builds a fresh translator state for each run, so
two runs over the same document tree produce identical output regardless
of any previous writer state — translation is deterministic and carries
no state between runs. -/
theorem translate_deterministic (w₁ w₂ : AsciiDocWriter)
    (h : w₁.document = w₂.document) :
    (w₁.translate).output = (w₂.translate).output := by
  simp [AsciiDocWriter.translate, h]

/-- Claim C9, witnessed on a one-node document with differing prior
outputs. -/
theorem translate_deterministic_wit :
    (AsciiDocWriter.translate ⟨.text "hi", none⟩).output =
      (AsciiDocWriter.translate ⟨.text "hi", some (.ok "stale")⟩).output :=
  translate_deterministic ⟨.text "hi", none⟩ ⟨.text "hi", some (.ok "stale")⟩ rfl

/-- Claim C10: outside figures, suppressed-TOC context and line blocks,
`visit_Text` appends the raw payload verbatim — for every string,
including ones the escaping table `toansi` would rewrite — and `toansi`
is nontrivial on such strings, so the escaping function is not applied on
the text-emission path. -/
theorem text_emitted_verbatim (st : State) (s : String)
    (hs : (st.inTopicContents && !st.outputTOC) = false)
    (hf : st.inFigure = false) (hl : st.inLineBlock = false) :
    visit_Text st s = st.emit s ∧ toansi "\x7b|" ≠ "\x7b|" := by
  constructor
  · simp [visit_Text, hs, hf, hl]
  · decide

/-- Claim C10, witnessed on a payload containing a brace and a non-ASCII
character. -/
theorem text_emitted_verbatim_wit :
    visit_Text initState "a\x7bé" = initState.emit "a\x7bé" ∧
    toansi "\x7b|" ≠ "\x7b|" :=
  text_emitted_verbatim initState "a\x7bé" rfl rfl rfl
